import Mathlib

/-!
# Store-Credit-Limit: a shallow embedding

A shallow embedding of the business logic of the Store-Credit-Limit
repository (tiered store-credit accrual and redemption for a Shopify shop),
with the theorems settling the specification claims.

Modelling conventions:
* Monetary amounts and rates are exact rationals (`ℚ`); JavaScript decimal
  literals denote the corresponding rational (`0.035` is `7/200`, `0.2` is
  `1/5`).
* `x.toFixed(2)` followed by `parseFloat` (the webhook's storage format for
  monetary values) is modelled by `round2`, rounding to the nearest cent.
* A JavaScript object keyed by month strings is modelled as a total function
  `MonthKey → ℚ` that reads `0` at absent keys: the code's absent-key branch
  stores `amount.toFixed(2)`, which equals the present-key branch
  `(0 + amount).toFixed(2)` at a stored value of `0`, so the two models agree.
* Fallible reads (a missing metafield, a `JSON.parse` that throws) are
  modelled with `Option`: `none` for a missing field, and for a two-stage
  read `some none` for a present but unparseable value.
* The checkout functions call `new Date()` internally; the clock value they
  read is passed in as the `currentDate` argument of the model.
-/

namespace StoreCredit

/-- A calendar date as the JavaScript code observes it: `getFullYear()`,
zero-based `getMonth()` (0–11), and `getDate()`.  The credit-eligibility
code only ever reads the year and the month; `day` is carried so that
day-of-month independence is expressible. -/
structure Date where
  year : Int
  month : Nat
  day : Nat
deriving DecidableEq

/-- The strict previous-month test written verbatim in
`extensions/store-credit-discount/src/run.js` (lines 66–67) and
`extensions/store-credit-function/src/index.js` (line 199):
`year < currentYear || (year === currentYear && month < currentMonth)`. -/
def monthBefore (ty : Int) (tm : Nat) (cy : Int) (cm : Nat) : Bool :=
  ty < cy || (ty == cy && tm < cm)

/-- `x.toFixed(2)` re-read with `parseFloat`: rounding to the nearest cent,
with halves rounded up.  (The exact tie behaviour of `toFixed` on binary
doubles is representation-dependent; no concrete value used below is a tie.) -/
def round2 (x : ℚ) : ℚ := ((⌊100 * x + 1/2⌋ : ℤ) : ℚ) / 100

/-- An amount is a whole number of cents (the shape of every value the
webhook stores through `toFixed(2)`). -/
def IsCents (x : ℚ) : Prop := ∃ n : ℤ, x = (n : ℚ) / 100

/-- One entry of the `customer.credit_history` metafield as read by
`extensions/store-credit-discount/src/run.js` and written by
`src/js/store-credit.js` (`addCreditTransaction`): a type tag (`"earned"` or
`"used"`), a date and an amount.  The free-text `description` field is not
modelled; no modelled code reads it. -/
structure Transaction where
  type : String
  date : Date
  amount : ℚ
deriving DecidableEq

/-- The descending `for (const tier of ...)` lookup loop shared textually by
`extensions/store-credit-flow/calculate_monthly_credits.js` (lines 21–28) and
`extensions/store-credit-flow/add_order_credits.js` (lines 21–28):
the first tier whose threshold is `≤` the spend wins, with a `return 0`
fallback after the loop. -/
def tierLoop : List (ℚ × ℚ) → ℚ → ℚ
  | [], _ => 0
  | tier :: rest, spend => if tier.1 ≤ spend then tier.2 else tierLoop rest spend

namespace FlowMonthly

/-- `CREDIT_TIERS` of `extensions/store-credit-flow/calculate_monthly_credits.js`
(lines 9–14): descending (threshold, percentage) pairs ending in a zero-rate
catch-all. -/
def CREDIT_TIERS : List (ℚ × ℚ) :=
  [(50000, 1/25), (20000, 7/200), (10000, 1/50), (0, 0)]

/-- `calculateRebatePercentage` of `calculate_monthly_credits.js` (lines 21–28). -/
def calculateRebatePercentage (monthlySpend : ℚ) : ℚ :=
  tierLoop CREDIT_TIERS monthlySpend

/-- `calculateMonthlyRebate` of `calculate_monthly_credits.js` (lines 35–38). -/
def calculateMonthlyRebate (monthlySpend : ℚ) : ℚ :=
  monthlySpend * calculateRebatePercentage monthlySpend

end FlowMonthly

namespace FlowOrder

/-- `CREDIT_TIERS` of `extensions/store-credit-flow/add_order_credits.js`
(lines 9–14). -/
def CREDIT_TIERS : List (ℚ × ℚ) :=
  [(50000, 1/25), (20000, 7/200), (10000, 1/50), (0, 0)]

/-- `calculateRebatePercentage` of `add_order_credits.js` (lines 21–28). -/
def calculateRebatePercentage (orderAmount : ℚ) : ℚ :=
  tierLoop CREDIT_TIERS orderAmount

/-- `calculateOrderRebate` of `add_order_credits.js` (lines 35–38). -/
def calculateOrderRebate (orderAmount : ℚ) : ℚ :=
  orderAmount * calculateRebatePercentage orderAmount

end FlowOrder

namespace Webhook

/-- `calculateRebatePercentage` of
`extensions/store-credit-webhook/src/index.js` (lines 15–25): an if/else
chain checked from the highest threshold down. -/
def calculateRebatePercentage (monthlyRevenue : ℚ) : ℚ :=
  if monthlyRevenue ≥ 50000 then 1/25
  else if monthlyRevenue ≥ 20000 then 7/200
  else if monthlyRevenue ≥ 10000 then 1/50
  else 0

/-- A month bucket key as built by
`` `${orderDate.getFullYear()}-${orderDate.getMonth()}` `` (webhook
`index.js` line 119): the year and the zero-based month. -/
abbrev MonthKey := Int × Nat

/-- The order data extracted by `onOrderPaid` (webhook `index.js` lines
320–326): the order id, the month bucket of `processed_at`, and the parsed
`total_price`.  `calculateUpdatedMetafields` never reads `id`. -/
structure Order where
  id : String
  month : MonthKey
  total : ℚ

/-- The three customer metafields the webhook reads and writes:
`custom.revenu_track` (revenue by month), `custom.rebate` (earned credits by
month) and `custom.revenu` (total revenue).  The two JSON objects are
modelled as total functions reading `0` at absent keys (see the header). -/
structure Metafields where
  revenuTrack : MonthKey → ℚ
  rebate : MonthKey → ℚ
  revenu : ℚ

/-- The update-or-create step used for both JSON metafields (webhook
`index.js` lines 140–144 and 162–166):
`data[ym] = (parseFloat(data[ym]) + amount).toFixed(2)` when the key is
present, `data[ym] = amount.toFixed(2)` otherwise. -/
def upsert (data : MonthKey → ℚ) (yearMonth : MonthKey) (amount : ℚ) :
    MonthKey → ℚ :=
  fun k => if k = yearMonth then round2 (data yearMonth + amount) else data k

/-- `calculateUpdatedMetafields` (webhook `index.js` lines 114–201): add the
order total to the month's revenue, look up the rebate rate of the *new*
monthly revenue, add `orderTotal × rate` to the month's rebate, and add the
order total to the overall revenue (stored through `toFixed(2)`). -/
def calculateUpdatedMetafields (existing : Metafields) (orderData : Order) :
    Metafields :=
  let yearMonth := orderData.month
  let orderTotal := orderData.total
  let revenueTrackData := upsert existing.revenuTrack yearMonth orderTotal
  let monthlyRevenue := revenueTrackData yearMonth
  let rebatePercentage := calculateRebatePercentage monthlyRevenue
  let rebateAmount := orderTotal * rebatePercentage
  { revenuTrack := revenueTrackData
    rebate := upsert existing.rebate yearMonth rebateAmount
    revenu := round2 (existing.revenu + orderTotal) }

/-- A sequence of paid-order webhook deliveries for one month, applied in
arrival order (ids are irrelevant to the state, so only totals appear). -/
def runOrders (st : Metafields) (m : MonthKey) (totals : List ℚ) : Metafields :=
  totals.foldl (fun s t => calculateUpdatedMetafields s ⟨"", m, t⟩) st

/-- The all-zero ledger: a customer with no metafields yet. -/
def emptyMetafields : Metafields :=
  { revenuTrack := fun _ => 0, rebate := fun _ => 0, revenu := 0 }

end Webhook

namespace Manager

/-- `calculateRebatePercentage` of `src/js/store-credit.js` (lines 327–332). -/
def calculateRebatePercentage (monthlySpend : ℚ) : ℚ :=
  if monthlySpend ≥ 50000 then 1/25
  else if monthlySpend ≥ 20000 then 7/200
  else if monthlySpend ≥ 10000 then 1/50
  else 0

/-- `this.CREDIT_USAGE_LIMIT = 0.20` (`store-credit.js` line 14). -/
def CREDIT_USAGE_LIMIT : ℚ := 1/5

/-- `calculateMaxCreditUsage` (`store-credit.js` lines 349–351). -/
def calculateMaxCreditUsage (orderAmount : ℚ) : ℚ :=
  orderAmount * CREDIT_USAGE_LIMIT

/-- `applyCreditsToOrder` (`store-credit.js` lines 255–308), with its I/O
replaced by explicit state: inputs are the requested `creditAmount` (already
`parseFloat || 0`), the stored aggregate balance `this.customerCredits`, the
checkout order total, and the stored history.  Result `none` models each
early `return` (no state change, the user alerted); `some` carries the new
balance `customerCredits - creditAmount` and the history with the `"used"`
transaction appended by `addCreditTransaction`. -/
def applyCreditsToOrder (creditAmount customerCredits orderTotal : ℚ)
    (creditHistory : List Transaction) (now : Date) :
    Option (ℚ × List Transaction) :=
  if creditAmount ≤ 0 then none
  else if customerCredits < creditAmount then none
  else if calculateMaxCreditUsage orderTotal < creditAmount then none
  else some (customerCredits - creditAmount,
    creditHistory ++ [⟨"used", now, creditAmount⟩])

end Manager

namespace DiscountRun

/-- `CREDIT_USAGE_LIMIT = 0.20` (`store-credit-discount/src/run.js` line 13). -/
def CREDIT_USAGE_LIMIT : ℚ := 1/5

/-- The eligible-credit sum of `run.js` (lines 58–68): filter the history to
`"earned"` transactions from strictly earlier calendar months, then sum the
amounts with `reduce`. -/
def eligibleCredits (creditHistory : List Transaction) (currentDate : Date) : ℚ :=
  (creditHistory.filter (fun t =>
      t.type == "earned" &&
      monthBefore t.date.year t.date.month currentDate.year currentDate.month)).foldl
    (fun total t => total + t.amount) 0

/-- `run` of `store-credit-discount/src/run.js`, from the store-credits
metafield guard on (the missing-customer guard, line 17, likewise returns
the no-discount response).  `availableCreditsField` is the parsed
`customer.store_credits` metafield (`none` when absent); `historyField` is
`none` when the `credit_history` metafield is absent, `some none` when
present but `JSON.parse` throws (the catch on line 48 leaves the history
empty), and `some (some h)` when parsed.  The result is the fixed-amount
discount applied, `none` when the function returns no discount. -/
def run (availableCreditsField : Option ℚ)
    (historyField : Option (Option (List Transaction)))
    (cartTotal : ℚ) (currentDate : Date) : Option ℚ :=
  match availableCreditsField with
  | none => none
  | some availableCredits =>
    if availableCredits ≤ 0 then none
    else
      let creditHistory : List Transaction :=
        match historyField with
        | some (some h) => h
        | _ => []
      let eligible := eligibleCredits creditHistory currentDate
      if eligible ≤ 0 then none
      else some (min (cartTotal * CREDIT_USAGE_LIMIT) eligible)

end DiscountRun

namespace FunctionRun

/-- The matured-credit sum of `store-credit-function/src/index.js`
(lines 193–202): iterate over `Object.entries(rebateData)`, parse each key
as (year, month), and accumulate amounts from strictly earlier months. -/
def availableCredits (rebateData : List (Webhook.MonthKey × ℚ))
    (currentDate : Date) : ℚ :=
  rebateData.foldl
    (fun acc e =>
      if monthBefore e.1.1 e.1.2 currentDate.year currentDate.month
      then acc + e.2 else acc) 0

/-- `run` of `store-credit-function/src/index.js`, from the cart-attribute
guard on (the missing-customer guard, line 156, likewise returns
`noDiscountResponse`).  `storeCreditsAttr` is the parsed
`store_credits_to_apply` attribute (`none` when absent or `NaN`);
`rebateField` is `none` when the `custom.rebate` metafield is absent or
empty, `some none` when present but `JSON.parse` throws (caught on line 232,
returning `noDiscountResponse`), `some (some rd)` when parsed.  The result
is the fixed-amount discount, `none` for `noDiscountResponse`. -/
def run (storeCreditsAttr : Option ℚ)
    (rebateField : Option (Option (List (Webhook.MonthKey × ℚ))))
    (cartTotal : ℚ) (currentDate : Date) : Option ℚ :=
  match storeCreditsAttr with
  | none => none
  | some storeCreditsToApply =>
    if storeCreditsToApply ≤ 0 then none
    else
      match rebateField with
      | none => none
      | some none => none
      | some (some rebateData) =>
        let avail := availableCredits rebateData currentDate
        let maxCreditsForOrder := cartTotal * (1/5)
        let creditsToUse := min avail (min storeCreditsToApply maxCreditsForOrder)
        if creditsToUse ≤ 0 then none else some creditsToUse

end FunctionRun

/-- The stored cumulative monthly revenue after a list of order totals has
been processed, starting from a stored value `rev`: each order adds its
cent-rounded total (the code stores `(prev + total).toFixed(2)`, and adding
to an already cent-rounded value rounds only the new contribution). -/
def revenueAfter (rev : ℚ) : List ℚ → ℚ
  | [] => rev
  | t :: rest => revenueAfter (rev + round2 t) rest

/-- The sum of the per-order credit contributions that the amended claim C4
describes: each order contributes its own cent-rounded
`round2 (total × rate (cumulative stored revenue after this order))`,
and earlier contributions are never revisited. -/
def creditSum (rev : ℚ) : List ℚ → ℚ
  | [] => 0
  | t :: rest =>
    round2 (t * Webhook.calculateRebatePercentage (rev + round2 t)) +
      creditSum (rev + round2 t) rest

end StoreCredit

namespace StoreCredit

/-! ## Helper lemmas -/

theorem foldl_add_init {α : Type} (f : α → ℚ) :
    ∀ (l : List α) (a : ℚ),
      l.foldl (fun acc x => acc + f x) a = a + l.foldl (fun acc x => acc + f x) 0
  | [], a => by simp
  | x :: l, a => by
    simp only [List.foldl_cons]
    rw [foldl_add_init f l (a + f x), foldl_add_init f l (0 + f x)]
    ring

theorem monthBefore_iff (ty cy : Int) (tm cm : Nat) :
    monthBefore ty tm cy cm = true ↔ (ty < cy ∨ (ty = cy ∧ tm < cm)) := by
  simp [monthBefore]

theorem eligibleCredits_cons (t : Transaction) (h : List Transaction) (now : Date) :
    DiscountRun.eligibleCredits (t :: h) now =
      (if t.type == "earned" &&
          monthBefore t.date.year t.date.month now.year now.month
       then t.amount else 0) + DiscountRun.eligibleCredits h now := by
  unfold DiscountRun.eligibleCredits
  rw [List.filter_cons]
  by_cases hp :
      (t.type == "earned" &&
        monthBefore t.date.year t.date.month now.year now.month) = true
  · rw [if_pos hp, if_pos hp, List.foldl_cons,
      foldl_add_init (fun t : Transaction => t.amount)]
    ring
  · rw [if_neg hp, if_neg hp]
    simp

theorem eligibleCredits_month_congr (h : List Transaction) (n1 n2 : Date)
    (hy : n1.year = n2.year) (hm : n1.month = n2.month) :
    DiscountRun.eligibleCredits h n1 = DiscountRun.eligibleCredits h n2 := by
  unfold DiscountRun.eligibleCredits
  simp only [hy, hm]

theorem availableCredits_cons (ym : Webhook.MonthKey) (amt : ℚ)
    (rd : List (Webhook.MonthKey × ℚ)) (now : Date) :
    FunctionRun.availableCredits ((ym, amt) :: rd) now =
      (if monthBefore ym.1 ym.2 now.year now.month then amt else 0) +
        FunctionRun.availableCredits rd now := by
  have hfun :
      (fun (acc : ℚ) (e : Webhook.MonthKey × ℚ) =>
          if monthBefore e.1.1 e.1.2 now.year now.month then acc + e.2 else acc)
        = fun acc e =>
            acc + (if monthBefore e.1.1 e.1.2 now.year now.month then e.2 else 0) := by
    funext acc e
    by_cases hq : monthBefore e.1.1 e.1.2 now.year now.month = true <;> simp [hq]
  unfold FunctionRun.availableCredits
  rw [hfun, List.foldl_cons,
    foldl_add_init (fun e : Webhook.MonthKey × ℚ =>
      if monthBefore e.1.1 e.1.2 now.year now.month then e.2 else 0)]
  simp

theorem availableCredits_month_congr (rd : List (Webhook.MonthKey × ℚ))
    (n1 n2 : Date) (hy : n1.year = n2.year) (hm : n1.month = n2.month) :
    FunctionRun.availableCredits rd n1 = FunctionRun.availableCredits rd n2 := by
  unfold FunctionRun.availableCredits
  simp only [hy, hm]

theorem isCents_round2 (x : ℚ) : IsCents (round2 x) :=
  ⟨⌊100 * x + 1/2⌋, rfl⟩

theorem round2_cents_add (a x : ℚ) (ha : IsCents a) :
    round2 (a + x) = a + round2 x := by
  obtain ⟨n, rfl⟩ := ha
  unfold round2
  rw [show (100 : ℚ) * ((n : ℚ) / 100 + x) + 1/2 = (n : ℚ) + (100 * x + 1/2) by
    ring]
  rw [Int.floor_int_add]
  push_cast
  ring

theorem step_revenuTrack (st : Webhook.Metafields) (o : Webhook.Order) :
    (Webhook.calculateUpdatedMetafields st o).revenuTrack o.month
      = round2 (st.revenuTrack o.month + o.total) := by
  simp [Webhook.calculateUpdatedMetafields, Webhook.upsert]

theorem step_rebate (st : Webhook.Metafields) (o : Webhook.Order) :
    (Webhook.calculateUpdatedMetafields st o).rebate o.month
      = round2 (st.rebate o.month +
          o.total * Webhook.calculateRebatePercentage
            (round2 (st.revenuTrack o.month + o.total))) := by
  simp [Webhook.calculateUpdatedMetafields, Webhook.upsert]

theorem runOrders_eval (m : Webhook.MonthKey) :
    ∀ (ts : List ℚ) (st : Webhook.Metafields),
      IsCents (st.revenuTrack m) → IsCents (st.rebate m) →
      (Webhook.runOrders st m ts).revenuTrack m
          = revenueAfter (st.revenuTrack m) ts
        ∧ (Webhook.runOrders st m ts).rebate m
          = st.rebate m + creditSum (st.revenuTrack m) ts
  | [], st, _, _ => by simp [Webhook.runOrders, revenueAfter, creditSum]
  | t :: ts, st, hrev, hreb => by
    have hstep_rev :
        (Webhook.calculateUpdatedMetafields st ⟨"", m, t⟩).revenuTrack m
          = st.revenuTrack m + round2 t := by
      rw [step_revenuTrack st ⟨"", m, t⟩, round2_cents_add _ _ hrev]
    have hstep_reb :
        (Webhook.calculateUpdatedMetafields st ⟨"", m, t⟩).rebate m
          = st.rebate m +
              round2 (t * Webhook.calculateRebatePercentage
                (st.revenuTrack m + round2 t)) := by
      rw [step_rebate st ⟨"", m, t⟩, round2_cents_add _ _ hrev,
        round2_cents_add _ _ hreb]
    have hrev' : IsCents
        ((Webhook.calculateUpdatedMetafields st ⟨"", m, t⟩).revenuTrack m) := by
      rw [step_revenuTrack st ⟨"", m, t⟩]
      exact isCents_round2 _
    have hreb' : IsCents
        ((Webhook.calculateUpdatedMetafields st ⟨"", m, t⟩).rebate m) := by
      rw [step_rebate st ⟨"", m, t⟩]
      exact isCents_round2 _
    have ih := runOrders_eval m ts
      (Webhook.calculateUpdatedMetafields st ⟨"", m, t⟩) hrev' hreb'
    have hfold :
        Webhook.runOrders st m (t :: ts)
          = Webhook.runOrders
              (Webhook.calculateUpdatedMetafields st ⟨"", m, t⟩) m ts := by
      simp [Webhook.runOrders]
    constructor
    · rw [hfold, ih.1, hstep_rev]
      rfl
    · rw [hfold, ih.2, hstep_reb, hstep_rev]
      show _ = st.rebate m +
        (round2 (t * Webhook.calculateRebatePercentage (st.revenuTrack m + round2 t))
          + creditSum (st.revenuTrack m + round2 t) ts)
      ring

theorem flowMonthly_rate_eq_webhook (s : ℚ) :
    FlowMonthly.calculateRebatePercentage s = Webhook.calculateRebatePercentage s := by
  simp only [FlowMonthly.calculateRebatePercentage, FlowMonthly.CREDIT_TIERS,
    tierLoop, Webhook.calculateRebatePercentage, ge_iff_le]
  split_ifs <;> rfl

theorem flowOrder_rate_eq_webhook (s : ℚ) :
    FlowOrder.calculateRebatePercentage s = Webhook.calculateRebatePercentage s := by
  simp only [FlowOrder.calculateRebatePercentage, FlowOrder.CREDIT_TIERS,
    tierLoop, Webhook.calculateRebatePercentage, ge_iff_le]
  split_ifs <;> rfl

/-! ## The claims -/

/-- C1: for every computed redemption, the credit amount applied at checkout
is at most the minimum of the customer's eligible (matured) credit balance
and 20% of the cart amount — in both the discount function
(`store-credit-discount/src/run.js`) and the function extension
(`store-credit-function/src/index.js`), whenever a discount is produced its
amount is `≤ min eligibleBalance (cartTotal × 0.20)`. -/
theorem claim1_redemption_cap :
    (∀ (a : ℚ) (h : List Transaction) (c : ℚ) (now : Date) (amt : ℚ),
        DiscountRun.run (some a) (some (some h)) c now = some amt →
        amt ≤ min (DiscountRun.eligibleCredits h now) (c * (1/5)))
    ∧ (∀ (req : ℚ) (rd : List (Webhook.MonthKey × ℚ)) (c : ℚ) (now : Date)
        (amt : ℚ),
        FunctionRun.run (some req) (some (some rd)) c now = some amt →
        amt ≤ min (FunctionRun.availableCredits rd now) (c * (1/5))) := by
  constructor
  · intro a h c now amt hrun
    simp only [DiscountRun.run, DiscountRun.CREDIT_USAGE_LIMIT] at hrun
    split_ifs at hrun
    all_goals first
      | exact Option.noConfusion hrun
      | (rw [Option.some.injEq] at hrun
         rw [← hrun, min_comm]
         try exact le_rfl)
  · intro req rd c now amt hrun
    simp only [FunctionRun.run] at hrun
    split_ifs at hrun
    all_goals first
      | exact Option.noConfusion hrun
      | (rw [Option.some.injEq] at hrun
         rw [← hrun]
         exact le_min (min_le_left _ _)
           (le_trans (min_le_right _ _) (min_le_right _ _)))

/-- Witness for C1: a customer with $50 of credits earned in December 2023,
checking out a $100 cart in January 2024; the discount function applies $20
(the 20% cap) and the function extension, asked for $15, applies $15. -/
theorem claim1_redemption_cap_witness :
    ((20 : ℚ) ≤ min
      (DiscountRun.eligibleCredits [⟨"earned", ⟨2023, 11, 15⟩, 50⟩] ⟨2024, 0, 10⟩)
      ((100 : ℚ) * (1/5)))
    ∧ ((15 : ℚ) ≤ min
      (FunctionRun.availableCredits [((2023, 11), 50)] ⟨2024, 0, 10⟩)
      ((100 : ℚ) * (1/5))) := by
  constructor
  · exact claim1_redemption_cap.1 50 [⟨"earned", ⟨2023, 11, 15⟩, 50⟩] 100
      ⟨2024, 0, 10⟩ 20
      (by norm_num [DiscountRun.run, DiscountRun.eligibleCredits,
        DiscountRun.CREDIT_USAGE_LIMIT, monthBefore, List.filter])
  · exact claim1_redemption_cap.2 15 [((2023, 11), 50)] 100 ⟨2024, 0, 10⟩ 15
      (by norm_num [FunctionRun.run, FunctionRun.availableCredits, monthBefore])

/-- C2: the claim says replaying the same order identifier is a no-op, but
the webhook performs no order-identifier tracking at all — delivering the
same order (id "1001", $10,000, January 2024) twice doubles the month's
recorded revenue to $20,000 and books a second rebate (total $550 instead
of $200), so the ledger after two deliveries differs from the ledger after
one. -/
theorem claim2_replay_double_counts :
    ((Webhook.calculateUpdatedMetafields
        (Webhook.calculateUpdatedMetafields Webhook.emptyMetafields
          ⟨"1001", (2024, 0), 10000⟩)
        ⟨"1001", (2024, 0), 10000⟩).revenuTrack (2024, 0) = 20000)
    ∧ ((Webhook.calculateUpdatedMetafields Webhook.emptyMetafields
        ⟨"1001", (2024, 0), 10000⟩).revenuTrack (2024, 0) = 10000)
    ∧ ((Webhook.calculateUpdatedMetafields
        (Webhook.calculateUpdatedMetafields Webhook.emptyMetafields
          ⟨"1001", (2024, 0), 10000⟩)
        ⟨"1001", (2024, 0), 10000⟩).rebate (2024, 0) = 550)
    ∧ ((Webhook.calculateUpdatedMetafields Webhook.emptyMetafields
        ⟨"1001", (2024, 0), 10000⟩).rebate (2024, 0) = 200)
    ∧ Webhook.calculateUpdatedMetafields
        (Webhook.calculateUpdatedMetafields Webhook.emptyMetafields
          ⟨"1001", (2024, 0), 10000⟩)
        ⟨"1001", (2024, 0), 10000⟩
      ≠ Webhook.calculateUpdatedMetafields Webhook.emptyMetafields
          ⟨"1001", (2024, 0), 10000⟩ := by
  have h2 : (Webhook.calculateUpdatedMetafields Webhook.emptyMetafields
      ⟨"1001", (2024, 0), 10000⟩).revenuTrack (2024, 0) = 10000 := by
    norm_num [Webhook.calculateUpdatedMetafields, Webhook.upsert,
      Webhook.emptyMetafields, round2]
  have h1 : (Webhook.calculateUpdatedMetafields
      (Webhook.calculateUpdatedMetafields Webhook.emptyMetafields
        ⟨"1001", (2024, 0), 10000⟩)
      ⟨"1001", (2024, 0), 10000⟩).revenuTrack (2024, 0) = 20000 := by
    norm_num [Webhook.calculateUpdatedMetafields, Webhook.upsert,
      Webhook.emptyMetafields, round2]
  have h4 : (Webhook.calculateUpdatedMetafields Webhook.emptyMetafields
      ⟨"1001", (2024, 0), 10000⟩).rebate (2024, 0) = 200 := by
    norm_num [Webhook.calculateUpdatedMetafields, Webhook.upsert,
      Webhook.emptyMetafields, Webhook.calculateRebatePercentage, round2]
  have h3 : (Webhook.calculateUpdatedMetafields
      (Webhook.calculateUpdatedMetafields Webhook.emptyMetafields
        ⟨"1001", (2024, 0), 10000⟩)
      ⟨"1001", (2024, 0), 10000⟩).rebate (2024, 0) = 550 := by
    norm_num [Webhook.calculateUpdatedMetafields, Webhook.upsert,
      Webhook.emptyMetafields, Webhook.calculateRebatePercentage, round2]
  refine ⟨h1, h2, h3, h4, fun heq => ?_⟩
  have hval := congrArg (fun st => st.revenuTrack (2024, 0)) heq
  simp only at hval
  rw [h1, h2] at hval
  exact absurd hval (by norm_num)

/-- C3: the redeemable balance never includes credits of the current
calendar month: in the discount function an `"earned"` history entry
contributes its amount to the eligible sum exactly when its (year, month)
is lexicographically before the (year, month) of `now`; non-`"earned"`
entries never contribute; the sum is independent of the day of `now`; and
the function extension's per-month sum behaves the same way. -/
theorem claim3_maturation_strict_month :
    (∀ (h : List Transaction) (t : Transaction) (now : Date),
        t.type = "earned" →
        DiscountRun.eligibleCredits (t :: h) now =
          (if t.date.year < now.year ∨
              (t.date.year = now.year ∧ t.date.month < now.month)
           then t.amount else 0) + DiscountRun.eligibleCredits h now)
    ∧ (∀ (h : List Transaction) (t : Transaction) (now : Date),
        t.type ≠ "earned" →
        DiscountRun.eligibleCredits (t :: h) now =
          DiscountRun.eligibleCredits h now)
    ∧ (∀ (h : List Transaction) (n1 n2 : Date),
        n1.year = n2.year → n1.month = n2.month →
        DiscountRun.eligibleCredits h n1 = DiscountRun.eligibleCredits h n2)
    ∧ (∀ (rd : List (Webhook.MonthKey × ℚ)) (ym : Webhook.MonthKey) (amt : ℚ)
        (now : Date),
        FunctionRun.availableCredits ((ym, amt) :: rd) now =
          (if ym.1 < now.year ∨ (ym.1 = now.year ∧ ym.2 < now.month)
           then amt else 0) + FunctionRun.availableCredits rd now)
    ∧ (∀ (rd : List (Webhook.MonthKey × ℚ)) (n1 n2 : Date),
        n1.year = n2.year → n1.month = n2.month →
        FunctionRun.availableCredits rd n1 = FunctionRun.availableCredits rd n2) := by
  refine ⟨?_, ?_, eligibleCredits_month_congr, ?_, availableCredits_month_congr⟩
  · intro h t now hty
    rw [eligibleCredits_cons]
    congr 1
    have hbeq : (t.type == "earned") = true := by simp [hty]
    by_cases hmb : monthBefore t.date.year t.date.month now.year now.month = true
    · rw [if_pos (by simp [hbeq, hmb]),
        if_pos ((monthBefore_iff _ _ _ _).mp hmb)]
    · rw [if_neg (by simp [hbeq, hmb]),
        if_neg (fun hc => hmb ((monthBefore_iff _ _ _ _).mpr hc))]
  · intro h t now hty
    rw [eligibleCredits_cons]
    have hbeq : (t.type == "earned") = false := by
      simp [hty]
    rw [if_neg (by simp [hbeq])]
    ring
  · intro rd ym amt now
    rw [availableCredits_cons]
    congr 1
    by_cases hmb : monthBefore ym.1 ym.2 now.year now.month = true
    · rw [if_pos hmb, if_pos ((monthBefore_iff _ _ _ _).mp hmb)]
    · rw [if_neg hmb,
        if_neg (fun hc => hmb ((monthBefore_iff _ _ _ _).mpr hc))]

/-- Witness for C3: a $5 credit earned in December 2023 counts toward the
eligible balance on both the first and the last day of January 2024; a
`"used"` entry does not; the month sums are day-independent. -/
theorem claim3_maturation_strict_month_witness :
    (DiscountRun.eligibleCredits [⟨"earned", ⟨2023, 11, 1⟩, 5⟩] ⟨2024, 0, 31⟩
      = (if (2023 : ℤ) < 2024 ∨ ((2023 : ℤ) = 2024 ∧ 11 < 0) then (5 : ℚ) else 0)
        + DiscountRun.eligibleCredits [] ⟨2024, 0, 31⟩)
    ∧ (DiscountRun.eligibleCredits [⟨"used", ⟨2023, 11, 1⟩, 5⟩] ⟨2024, 0, 31⟩
      = DiscountRun.eligibleCredits [] ⟨2024, 0, 31⟩)
    ∧ (DiscountRun.eligibleCredits [⟨"earned", ⟨2023, 11, 1⟩, 5⟩] ⟨2024, 0, 1⟩
      = DiscountRun.eligibleCredits [⟨"earned", ⟨2023, 11, 1⟩, 5⟩] ⟨2024, 0, 31⟩)
    ∧ (FunctionRun.availableCredits [((2023, 11), 5)] ⟨2024, 0, 31⟩
      = (if (2023 : ℤ) < 2024 ∨ ((2023 : ℤ) = 2024 ∧ 11 < 0) then (5 : ℚ) else 0)
        + FunctionRun.availableCredits [] ⟨2024, 0, 31⟩)
    ∧ (FunctionRun.availableCredits [((2023, 11), 5)] ⟨2024, 0, 1⟩
      = FunctionRun.availableCredits [((2023, 11), 5)] ⟨2024, 0, 31⟩) :=
  ⟨claim3_maturation_strict_month.1 [] ⟨"earned", ⟨2023, 11, 1⟩, 5⟩ ⟨2024, 0, 31⟩ rfl,
   claim3_maturation_strict_month.2.1 [] ⟨"used", ⟨2023, 11, 1⟩, 5⟩ ⟨2024, 0, 31⟩
     (by decide),
   claim3_maturation_strict_month.2.2.1 [⟨"earned", ⟨2023, 11, 1⟩, 5⟩]
     ⟨2024, 0, 1⟩ ⟨2024, 0, 31⟩ rfl rfl,
   claim3_maturation_strict_month.2.2.2.1 [] (2023, 11) 5 ⟨2024, 0, 31⟩,
   claim3_maturation_strict_month.2.2.2.2 [((2023, 11), 5)]
     ⟨2024, 0, 1⟩ ⟨2024, 0, 31⟩ rfl rfl⟩

/-- C4 (counterexample): a single order of $10,000.10 in an empty January
2024 ledger lands at the 2% tier, but the webhook stores the month's earned
credits through `toFixed(2)`: it records $200.00, not the exact
`orderTotal × rate = $200.002` the claim's sum formula gives, so
`earnedCredits` after the orders does not equal the exact sum of
`orderTotal × rate(cumulativeRevenueAfterThatOrder)`. -/
theorem claim4_counterexample_rounding :
    ((Webhook.runOrders Webhook.emptyMetafields (2024, 0)
        [10000 + 1/10]).rebate (2024, 0) = 200)
    ∧ ((10000 + 1/10) * Webhook.calculateRebatePercentage (10000 + 1/10)
        = 200 + 1/500)
    ∧ (Webhook.runOrders Webhook.emptyMetafields (2024, 0)
        [10000 + 1/10]).rebate (2024, 0)
      ≠ (10000 + 1/10) * Webhook.calculateRebatePercentage (10000 + 1/10) := by
  have h1 : (Webhook.runOrders Webhook.emptyMetafields (2024, 0)
      [10000 + 1/10]).rebate (2024, 0) = 200 := by
    norm_num [Webhook.runOrders, Webhook.calculateUpdatedMetafields,
      Webhook.upsert, Webhook.emptyMetafields,
      Webhook.calculateRebatePercentage, round2]
  have h2 : (10000 + 1/10 : ℚ) * Webhook.calculateRebatePercentage (10000 + 1/10)
      = 200 + 1/500 := by
    norm_num [Webhook.calculateRebatePercentage]
  exact ⟨h1, h2, by rw [h1, h2]; norm_num⟩

/-- C4 (amended): for every sequence of orders within one month starting
from an empty ledger, the month's stored revenue is the sum of the
cent-rounded order totals, and the month's `earnedCredits` equals the sum
of each order's own *cent-rounded* contribution
`round2 (orderTotal × rate (cumulative stored revenue after that order))` —
each order is rated once, by the cumulative revenue after it, and earlier
orders are never retroactively re-rated; only the `toFixed(2)` cent rounding
separates this from the claim's exact-sum formula. -/
theorem claim4_rounded_contribution_sum (m : Webhook.MonthKey) (ts : List ℚ) :
    (Webhook.runOrders Webhook.emptyMetafields m ts).revenuTrack m
        = revenueAfter 0 ts
      ∧ (Webhook.runOrders Webhook.emptyMetafields m ts).rebate m
        = creditSum 0 ts := by
  have h := runOrders_eval m ts Webhook.emptyMetafields
    ⟨0, by norm_num [Webhook.emptyMetafields]⟩
    ⟨0, by norm_num [Webhook.emptyMetafields]⟩
  simpa [Webhook.emptyMetafields] using h

/-- C5: the rebate-rate lookup maps a monthly spend to the rate of the
highest tier threshold at or below it, with the table checked in descending
order: 4% from $50,000 (boundary included), 3.5% on [$20,000, $50,000), 2%
on [$10,000, $20,000), 0 below $10,000; six months of $10,000 earn $1,200
total, five months of $20,000 earn $3,500, and a $50,000 month earns $2,000
at the 4% tier; the webhook's chain agrees with the Flow table. -/
theorem claim5_tier_rate_table :
    ∀ s : ℚ,
      ((50000 : ℚ) ≤ s → FlowMonthly.calculateRebatePercentage s = 1/25)
      ∧ ((20000 : ℚ) ≤ s → s < 50000 →
          FlowMonthly.calculateRebatePercentage s = 7/200)
      ∧ ((10000 : ℚ) ≤ s → s < 20000 →
          FlowMonthly.calculateRebatePercentage s = 1/50)
      ∧ (s < 10000 → FlowMonthly.calculateRebatePercentage s = 0)
      ∧ 6 * FlowMonthly.calculateMonthlyRebate 10000 = 1200
      ∧ 5 * FlowMonthly.calculateMonthlyRebate 20000 = 3500
      ∧ FlowMonthly.calculateMonthlyRebate 50000 = 2000
      ∧ Webhook.calculateRebatePercentage s
          = FlowMonthly.calculateRebatePercentage s := by
  intro s
  have hW : FlowMonthly.calculateRebatePercentage s
      = Webhook.calculateRebatePercentage s := flowMonthly_rate_eq_webhook s
  refine ⟨?_, ?_, ?_, ?_, ?_, ?_, ?_, hW.symm⟩
  · intro h50
    rw [hW]
    simp only [Webhook.calculateRebatePercentage, ge_iff_le]
    split_ifs <;> rfl
  · intro h20 h50
    rw [hW]
    simp only [Webhook.calculateRebatePercentage, ge_iff_le]
    split_ifs <;> first | rfl | linarith
  · intro h10 h20
    rw [hW]
    simp only [Webhook.calculateRebatePercentage, ge_iff_le]
    split_ifs <;> first | rfl | linarith
  · intro h10
    rw [hW]
    simp only [Webhook.calculateRebatePercentage, ge_iff_le]
    split_ifs <;> first | rfl | linarith
  · norm_num [FlowMonthly.calculateMonthlyRebate,
      FlowMonthly.calculateRebatePercentage, FlowMonthly.CREDIT_TIERS, tierLoop]
  · norm_num [FlowMonthly.calculateMonthlyRebate,
      FlowMonthly.calculateRebatePercentage, FlowMonthly.CREDIT_TIERS, tierLoop]
  · norm_num [FlowMonthly.calculateMonthlyRebate,
      FlowMonthly.calculateRebatePercentage, FlowMonthly.CREDIT_TIERS, tierLoop]

/-- Witness for C5: concrete spends in each tier get the stated rates. -/
theorem claim5_tier_rate_table_witness :
    FlowMonthly.calculateRebatePercentage 50000 = 1/25
    ∧ FlowMonthly.calculateRebatePercentage 25000 = 7/200
    ∧ FlowMonthly.calculateRebatePercentage 15000 = 1/50
    ∧ FlowMonthly.calculateRebatePercentage 9999 = 0 :=
  ⟨(claim5_tier_rate_table 50000).1 (by norm_num),
   (claim5_tier_rate_table 25000).2.1 (by norm_num) (by norm_num),
   (claim5_tier_rate_table 15000).2.2.1 (by norm_num) (by norm_num),
   (claim5_tier_rate_table 9999).2.2.2.1 (by norm_num)⟩

/-- C6: the claim says a negative or non-finite `orderTotal` is rejected as
`InvalidOrderAmount` with the entry untouched, but the webhook performs no
validation: an order of −$100 in January 2024 on an empty ledger is
processed normally, recording −$100 as the month's revenue — the entry is
modified and no error path exists. -/
theorem claim6_negative_total_recorded :
    ((Webhook.calculateUpdatedMetafields Webhook.emptyMetafields
        ⟨"2002", (2024, 0), -100⟩).revenuTrack (2024, 0) = -100)
    ∧ Webhook.emptyMetafields.revenuTrack (2024, 0) = 0
    ∧ Webhook.calculateUpdatedMetafields Webhook.emptyMetafields
          ⟨"2002", (2024, 0), -100⟩
        ≠ Webhook.emptyMetafields := by
  have h1 : (Webhook.calculateUpdatedMetafields Webhook.emptyMetafields
      ⟨"2002", (2024, 0), -100⟩).revenuTrack (2024, 0) = -100 := by
    norm_num [Webhook.calculateUpdatedMetafields, Webhook.upsert,
      Webhook.emptyMetafields, round2]
  refine ⟨h1, rfl, fun heq => ?_⟩
  have hval := congrArg (fun st => st.revenuTrack (2024, 0)) heq
  simp only at hval
  rw [h1] at hval
  exact absurd hval (by norm_num [Webhook.emptyMetafields])

/-- C7 (counterexample): the redemption path checks the request only
against the stored *aggregate* balance, not the matured total: with a $100
balance earned entirely in the current month (matured total $0), a $50
redemption on a $1,000 order succeeds instead of failing with
`InsufficientBalance`, deducting from credits the month-maturation rule
says are not yet redeemable. -/
theorem claim7_counterexample_aggregate :
    Manager.applyCreditsToOrder 50 100 1000
        [⟨"earned", ⟨2024, 0, 5⟩, 100⟩] ⟨2024, 0, 20⟩ ≠ none
    ∧ DiscountRun.eligibleCredits [⟨"earned", ⟨2024, 0, 5⟩, 100⟩] ⟨2024, 0, 20⟩ = 0
    ∧ ¬((50 : ℚ) ≤ 0) := by
  refine ⟨?_, ?_, by norm_num⟩
  · have heval : Manager.applyCreditsToOrder 50 100 1000
        [⟨"earned", ⟨2024, 0, 5⟩, 100⟩] ⟨2024, 0, 20⟩
        = some (50, [⟨"earned", ⟨2024, 0, 5⟩, 100⟩,
            ⟨"used", ⟨2024, 0, 20⟩, 50⟩]) := by
      norm_num [Manager.applyCreditsToOrder, Manager.calculateMaxCreditUsage,
        Manager.CREDIT_USAGE_LIMIT]
    rw [heval]
    exact fun heq => Option.noConfusion heq
  · norm_num [DiscountRun.eligibleCredits, monthBefore, List.filter]

/-- C7 (amended): `applyCreditsToOrder` operates on the single aggregate
balance, with no per-month bookkeeping: it succeeds exactly when the
requested amount is positive, at most the stored aggregate balance, and at
most 20% of the order total (otherwise it rejects and changes nothing); on
success the balance drops by exactly the redeemed amount and a `"used"`
transaction is appended — no oldest-month-first deduction exists, and the
balance check uses the aggregate (current month included), not the matured
total. -/
theorem claim7_aggregate_redemption :
    ∀ (amt bal tot : ℚ) (h : List Transaction) (now : Date),
      ((Manager.applyCreditsToOrder amt bal tot h now).isSome ↔
        (0 < amt ∧ amt ≤ bal ∧ amt ≤ tot * (1/5)))
      ∧ (∀ (bal2 : ℚ) (h2 : List Transaction),
          Manager.applyCreditsToOrder amt bal tot h now = some (bal2, h2) →
          bal2 = bal - amt ∧ h2 = h ++ [⟨"used", now, amt⟩]) := by
  intro amt bal tot h now
  unfold Manager.applyCreditsToOrder Manager.calculateMaxCreditUsage
    Manager.CREDIT_USAGE_LIMIT
  constructor
  · by_cases h1 : amt ≤ 0
    · simp only [h1, if_true, Option.isSome_none]
      constructor
      · intro hfalse
        exact absurd hfalse (by simp)
      · rintro ⟨h0, -, -⟩
        linarith
    · by_cases h2 : bal < amt
      · simp only [h1, if_false, h2, if_true, Option.isSome_none]
        constructor
        · intro hfalse
          exact absurd hfalse (by simp)
        · rintro ⟨-, hle, -⟩
          linarith
      · by_cases h3 : tot * (1/5) < amt
        · simp only [h1, if_false, h2, h3, if_true, Option.isSome_none]
          constructor
          · intro hfalse
            exact absurd hfalse (by simp)
          · rintro ⟨-, -, hle⟩
            linarith
        · simp only [h1, if_false, h2, h3, Option.isSome_some, true_iff]
          exact ⟨by linarith [not_le.mp h1], not_lt.mp h2, not_lt.mp h3⟩
  · intro bal2 h2 heq
    split_ifs at heq
    rw [Option.some.injEq, Prod.mk.injEq] at heq
    exact ⟨heq.1.symm, heq.2.symm⟩

/-- Witness for C7 (amended): redeeming $20 from a $100 balance on a $100
order succeeds and leaves an $80 balance with the `"used"` entry appended. -/
theorem claim7_aggregate_redemption_witness :
    ((Manager.applyCreditsToOrder 20 100 100 [] ⟨2025, 0, 15⟩).isSome ↔
      ((0 : ℚ) < 20 ∧ (20 : ℚ) ≤ 100 ∧ (20 : ℚ) ≤ 100 * (1/5)))
    ∧ ((80 : ℚ) = 100 - 20
        ∧ ([⟨"used", ⟨2025, 0, 15⟩, 20⟩] : List Transaction)
          = [] ++ [⟨"used", ⟨2025, 0, 15⟩, 20⟩]) :=
  ⟨(claim7_aggregate_redemption 20 100 100 [] ⟨2025, 0, 15⟩).1,
   (claim7_aggregate_redemption 20 100 100 [] ⟨2025, 0, 15⟩).2 80
     [⟨"used", ⟨2025, 0, 15⟩, 20⟩]
     (by norm_num [Manager.applyCreditsToOrder, Manager.calculateMaxCreditUsage,
       Manager.CREDIT_USAGE_LIMIT])⟩

/-- C8 (counterexample): the checkout computation does not take `now` as a
parameter — it reads `new Date()` inside `run` — and its result depends on
that hidden clock value: with the same ledger snapshot ($50 earned in
December 2023) and the same $100 cart, a run while the clock reads January
2024 applies $20 while a run while the clock reads December 2023 applies
nothing, so fixing the claim's inputs (ledger, subtotal) does not fix the
result. -/
theorem claim8_counterexample_hidden_clock :
    DiscountRun.run (some 50) (some (some [⟨"earned", ⟨2023, 11, 15⟩, 50⟩]))
        100 ⟨2024, 0, 10⟩
      ≠ DiscountRun.run (some 50) (some (some [⟨"earned", ⟨2023, 11, 15⟩, 50⟩]))
        100 ⟨2023, 11, 20⟩ := by
  have h1 : DiscountRun.run (some 50)
      (some (some [⟨"earned", ⟨2023, 11, 15⟩, 50⟩])) 100 ⟨2024, 0, 10⟩
      = some 20 := by
    norm_num [DiscountRun.run, DiscountRun.eligibleCredits,
      DiscountRun.CREDIT_USAGE_LIMIT, monthBefore, List.filter]
  have h2 : DiscountRun.run (some 50)
      (some (some [⟨"earned", ⟨2023, 11, 15⟩, 50⟩])) 100 ⟨2023, 11, 20⟩
      = none := by
    norm_num [DiscountRun.run, DiscountRun.eligibleCredits,
      DiscountRun.CREDIT_USAGE_LIMIT, monthBefore, List.filter]
  rw [h1, h2]
  exact fun heq => Option.noConfusion heq

/-- C8 (amended): both checkout computations are deterministic given the
clock value they read, and they depend on that value only through its
calendar (year, month): for a fixed ledger snapshot and cart amount, two
runs whose internal `new Date()` falls in the same calendar month return
the same result, whatever the day or time. -/
theorem claim8_month_determinism :
    (∀ (a : Option ℚ) (hf : Option (Option (List Transaction))) (c : ℚ)
        (n1 n2 : Date),
        n1.year = n2.year → n1.month = n2.month →
        DiscountRun.run a hf c n1 = DiscountRun.run a hf c n2)
    ∧ (∀ (r : Option ℚ) (rf : Option (Option (List (Webhook.MonthKey × ℚ))))
        (c : ℚ) (n1 n2 : Date),
        n1.year = n2.year → n1.month = n2.month →
        FunctionRun.run r rf c n1 = FunctionRun.run r rf c n2) := by
  constructor
  · intro a hf c n1 n2 hy hm
    cases a with
    | none => rfl
    | some a =>
      simp only [DiscountRun.run]
      rw [eligibleCredits_month_congr _ n1 n2 hy hm]
  · intro r rf c n1 n2 hy hm
    cases r with
    | none => rfl
    | some req =>
      cases rf with
      | none => rfl
      | some orf =>
        cases orf with
        | none => rfl
        | some rd =>
          simp only [FunctionRun.run]
          rw [availableCredits_month_congr rd n1 n2 hy hm]

/-- Witness for C8 (amended): runs on the first and the last day of January
2024, same ledger and cart, agree. -/
theorem claim8_month_determinism_witness :
    DiscountRun.run (some 50) (some (some [⟨"earned", ⟨2023, 11, 15⟩, 50⟩]))
        100 ⟨2024, 0, 1⟩
      = DiscountRun.run (some 50) (some (some [⟨"earned", ⟨2023, 11, 15⟩, 50⟩]))
        100 ⟨2024, 0, 31⟩ :=
  claim8_month_determinism.1 (some 50)
    (some (some [⟨"earned", ⟨2023, 11, 15⟩, 50⟩])) 100
    ⟨2024, 0, 1⟩ ⟨2024, 0, 31⟩ rfl rfl

/-- C9 (counterexample): an unparseable `credit_history` metafield does not
surface any error: the discount function swallows the parse failure and
behaves exactly as if the history were empty, returning the ordinary
no-discount response; the function extension's catch likewise returns the
no-discount response for an unparseable `rebate` metafield — the corrupt
ledger silently defaults to an empty history / zero balance. -/
theorem claim9_counterexample_silent_default :
    DiscountRun.run (some 100) (some none) 1000 ⟨2024, 0, 10⟩ = none
    ∧ DiscountRun.run (some 100) (some none) 1000 ⟨2024, 0, 10⟩
      = DiscountRun.run (some 100) (some (some [])) 1000 ⟨2024, 0, 10⟩
    ∧ FunctionRun.run (some 50) (some none) 1000 ⟨2024, 0, 10⟩ = none := by
  refine ⟨?_, rfl, ?_⟩
  · norm_num [DiscountRun.run, DiscountRun.eligibleCredits, List.filter]
  · norm_num [FunctionRun.run]

/-- C9 (amended): a malformed stored ledger never produces an error value:
the discount function treats an unparseable history exactly like an empty
one (for every balance, cart and date), and the function extension returns
its plain no-discount response whenever the rebate metafield fails to
parse; nothing distinguishes corruption from an empty ledger for the
caller. -/
theorem claim9_silent_default_behaviour :
    (∀ (a : ℚ) (c : ℚ) (now : Date),
        DiscountRun.run (some a) (some none) c now
          = DiscountRun.run (some a) (some (some [])) c now)
    ∧ (∀ (r : Option ℚ) (c : ℚ) (now : Date),
        FunctionRun.run r (some none) c now = none) := by
  constructor
  · intro a c now
    rfl
  · intro r c now
    cases r with
    | none => rfl
    | some req =>
      simp only [FunctionRun.run, ite_self]

/-- C10: the four rebate-rate implementations — the descending tier-table
loops of the two Flow scripts, the webhook's if/else chain, and the
frontend `StoreCreditManager`'s chain — agree on every spend amount. -/
theorem claim10_rate_implementations_agree :
    ∀ s : ℚ,
      FlowMonthly.calculateRebatePercentage s = Webhook.calculateRebatePercentage s
      ∧ FlowOrder.calculateRebatePercentage s = Webhook.calculateRebatePercentage s
      ∧ Manager.calculateRebatePercentage s = Webhook.calculateRebatePercentage s :=
  fun s => ⟨flowMonthly_rate_eq_webhook s, flowOrder_rate_eq_webhook s, rfl⟩

end StoreCredit
